import Mathlib

/-!
Verification of the netmon/netns network-monitoring core of this repository:
the ChangeDelta calculator (NewChangeDelta, isInterestingIntefaceChange,
filterRoutableIPs, prefixesEqual), the Monitor lifecycle state, and the
reachability prober (probeInterfacesReachability, findInterfaceThatCanReach,
ifaceHasV4OrGlobalV6, tailscaleInterface).

The Go code is shallowly embedded: Go maps become association lists,
Go pointer-typed values that may be nil become Option, netip.Addr becomes
an inductive with the v4/v6 payload as a Nat (the 32-bit or 128-bit value),
and the goroutine/channel machinery of the monitor is modelled as explicit
state transitions.
-/

namespace Netmon

/-- Modelled from the Go standard library: an IP address.  netip.Addr stores
the address as a 128-bit value plus a family tag; we keep the family tag and
the numeric value (32-bit for v4, 128-bit for v6). -/
inductive Addr where
  | v4 (n : Nat)
  | v6 (n : Nat)
deriving DecidableEq, Repr

/-- Convenience constructor for dotted-quad IPv4 addresses. -/
def ipv4 (a b c d : Nat) : Addr :=
  Addr.v4 (((a * 256 + b) * 256 + c) * 256 + d)

/-- Modelled from the Go standard library: netip.Prefix, an address plus a
bit count. -/
structure IPPrefix where
  addr : Addr
  bits : Nat
deriving DecidableEq, Repr

/-- Three-way comparison on Nat, as Go's cmp.Compare. -/
def cmpNat (a b : Nat) : Ordering :=
  if a < b then .lt else if b < a then .gt else .eq

/-- Modelled from the Go standard library: netip.Addr.Compare.  IPv4
addresses sort before IPv6 addresses; within a family the numeric value
decides. -/
def Addr.compare : Addr → Addr → Ordering
  | .v4 m, .v4 n => cmpNat m n
  | .v4 _, .v6 _ => .lt
  | .v6 _, .v4 _ => .gt
  | .v6 m, .v6 n => cmpNat m n

/-- Go's insertion step: the element being inserted moves left past strictly
greater keys and stops at the first key less than or equal to it, so it lands
after any equal keys.  This is the behaviour of the insertion sort that
slices.SortFunc performs on short slices, phrased as insertion into the
already sorted part. -/
def goInsert (x : IPPrefix) : List IPPrefix → List IPPrefix
  | [] => [x]
  | y :: ys =>
    if Addr.compare x.addr y.addr = Ordering.lt then x :: y :: ys
    else y :: goInsert x ys

/-- Left-to-right insertion pass, as Go's insertion sort processing the
slice front to back. -/
def goInsertAll : List IPPrefix → List IPPrefix → List IPPrefix
  | [], acc => acc
  | x :: rest, acc => goInsertAll rest (goInsert x acc)

/-- slices.SortFunc with the comparison used by prefixesEqual: sort by the
prefix ADDRESS only (the bit count is not part of the key). -/
def goSortByAddr (l : List IPPrefix) : List IPPrefix :=
  goInsertAll l []

/-- prefixesEqual from netmon.go: reports whether a and b contain the same
set of prefixes regardless of order, by sorting private copies of both by
address and comparing element-wise. -/
def prefixesEqual (a b : List IPPrefix) : Bool :=
  if a.length ≠ b.length then false
  else decide (goSortByAddr a = goSortByAddr b)

theorem cmpNat_eq_eq {a b : Nat} : cmpNat a b = .eq ↔ a = b := by
  unfold cmpNat
  split
  · constructor
    · intro h; cases h
    · omega
  · split
    · constructor
      · intro h; cases h
      · omega
    · constructor
      · intro _; omega
      · intro _; rfl

theorem cmpNat_eq_lt {a b : Nat} : cmpNat a b = .lt ↔ a < b := by
  unfold cmpNat
  split
  · simp; omega
  · split <;> simp <;> omega

theorem cmpNat_eq_gt {a b : Nat} : cmpNat a b = .gt ↔ b < a := by
  unfold cmpNat
  split
  · simp; omega
  · split <;> simp <;> omega

theorem Addr.compare_eq_eq {x y : Addr} : Addr.compare x y = .eq ↔ x = y := by
  cases x <;> cases y <;> simp [Addr.compare, cmpNat_eq_eq]

theorem Addr.compare_lt_iff_gt {x y : Addr} :
    Addr.compare x y = .lt ↔ Addr.compare y x = .gt := by
  cases x <;> cases y <;> simp [Addr.compare, cmpNat_eq_lt, cmpNat_eq_gt]

/-- Transitivity used by the insertion-sort invariant: strictly below plus
not above gives not above. -/
theorem Addr.compare_lt_le_trans {x y z : Addr}
    (h1 : Addr.compare x y = .lt) (h2 : Addr.compare y z ≠ .gt) :
    Addr.compare x z ≠ .gt := by
  cases x <;> cases y <;> cases z <;>
    simp_all [Addr.compare, cmpNat_eq_lt, cmpNat_eq_gt] <;> omega

/-- The sortedness relation established by goSortByAddr. -/
def AddrLE (p q : IPPrefix) : Prop := Addr.compare p.addr q.addr ≠ .gt

theorem goInsert_perm (x : IPPrefix) (l : List IPPrefix) :
    List.Perm (goInsert x l) (x :: l) := by
  induction l with
  | nil => simp [goInsert]
  | cons y ys ih =>
    unfold goInsert
    split
    · exact List.Perm.refl _
    · exact List.Perm.trans (List.Perm.cons y ih) (List.Perm.swap x y ys)

theorem mem_goInsert {x z : IPPrefix} {l : List IPPrefix} :
    z ∈ goInsert x l ↔ z = x ∨ z ∈ l := by
  constructor
  · intro h
    have := (goInsert_perm x l).mem_iff.mp h
    simpa using this
  · intro h
    apply (goInsert_perm x l).mem_iff.mpr
    simpa using h

theorem goInsert_pairwise {x : IPPrefix} {l : List IPPrefix}
    (h : l.Pairwise AddrLE) : (goInsert x l).Pairwise AddrLE := by
  induction l with
  | nil => simp [goInsert, List.Pairwise]
  | cons y ys ih =>
    rcases List.pairwise_cons.mp h with ⟨hy, hys⟩
    unfold goInsert
    split
    · rename_i hlt
      apply List.pairwise_cons.mpr
      constructor
      · intro z hz
        rcases List.mem_cons.mp hz with rfl | hz
        · intro hg
          rw [hlt] at hg
          exact absurd hg (by decide)
        · exact Addr.compare_lt_le_trans hlt (hy z hz)
      · exact h
    · rename_i hnlt
      apply List.pairwise_cons.mpr
      constructor
      · intro z hz
        rcases mem_goInsert.mp hz with rfl | hz
        · intro hg
          rw [← Addr.compare_lt_iff_gt] at hg
          exact hnlt hg
        · exact hy z hz
      · exact ih hys

theorem goInsertAll_perm (l acc : List IPPrefix) :
    List.Perm (goInsertAll l acc) (l ++ acc) := by
  induction l generalizing acc with
  | nil => simp [goInsertAll]
  | cons x rest ih =>
    unfold goInsertAll
    have h1 : List.Perm (goInsertAll rest (goInsert x acc)) (rest ++ goInsert x acc) :=
      ih (goInsert x acc)
    have h2 : List.Perm (rest ++ goInsert x acc) (rest ++ (x :: acc)) :=
      (goInsert_perm x acc).append_left rest
    have h3 : List.Perm (rest ++ (x :: acc)) (x :: (rest ++ acc)) :=
      List.perm_middle
    exact (h1.trans h2).trans h3

theorem goSortByAddr_perm (l : List IPPrefix) :
    List.Perm (goSortByAddr l) l := by
  have := goInsertAll_perm l []
  simpa [goSortByAddr] using this

theorem goInsertAll_pairwise {l acc : List IPPrefix}
    (h : acc.Pairwise AddrLE) : (goInsertAll l acc).Pairwise AddrLE := by
  induction l generalizing acc with
  | nil => simpa [goInsertAll] using h
  | cons x rest ih =>
    unfold goInsertAll
    exact ih (goInsert_pairwise h)

theorem goSortByAddr_pairwise (l : List IPPrefix) :
    (goSortByAddr l).Pairwise AddrLE := by
  unfold goSortByAddr
  exact goInsertAll_pairwise (by simp)

/-- Two lists sorted by address that are permutations of each other and whose
addresses are pairwise distinct are equal. -/
theorem sorted_perm_eq : ∀ (l1 l2 : List IPPrefix),
    List.Perm l1 l2 → l1.Pairwise AddrLE → l2.Pairwise AddrLE →
    l1.Pairwise (fun p q => p.addr ≠ q.addr) → l1 = l2
  | [], l2, hp, _, _, _ => (hp.nil_eq).symm ▸ rfl
  | x :: xs, [], hp, _, _, _ => absurd hp.symm (by simp)
  | x :: xs, y :: ys, hp, s1, s2, hd => by
    rcases List.pairwise_cons.mp s1 with ⟨hx, sxs⟩
    rcases List.pairwise_cons.mp s2 with ⟨hy, sys⟩
    rcases List.pairwise_cons.mp hd with ⟨hdx, hdxs⟩
    have hxy : x = y := by
      by_contra hne
      have hymem : y ∈ x :: xs := hp.symm.mem_iff.mp (by simp)
      have hyxs : y ∈ xs := by
        rcases List.mem_cons.mp hymem with h | h
        · exact absurd h.symm hne
        · exact h
      have hxmem : x ∈ y :: ys := hp.mem_iff.mp (by simp)
      have hxys : x ∈ ys := by
        rcases List.mem_cons.mp hxmem with h | h
        · exact absurd h hne
        · exact h
      have h1 : AddrLE x y := hx y hyxs
      have h2 : AddrLE y x := hy x hxys
      have heq : Addr.compare x.addr y.addr = .eq := by
        unfold AddrLE at h1 h2
        rcases ho : Addr.compare x.addr y.addr with _ | _ | _
        · exact absurd (Addr.compare_lt_iff_gt.mp ho) h2
        · rfl
        · exact absurd ho h1
      exact absurd (Addr.compare_eq_eq.mp heq) (hdx y hyxs)
    subst hxy
    have hxs : List.Perm xs ys := hp.cons_inv
    have := sorted_perm_eq xs ys hxs sxs sys hdxs
    rw [this]

theorem prefixesEqual_self (l : List IPPrefix) : prefixesEqual l l = true := by
  simp [prefixesEqual]

theorem prefixesEqual_of_perm_of_distinct {a b : List IPPrefix}
    (hp : List.Perm a b) (hd : a.Pairwise (fun p q => p.addr ≠ q.addr)) :
    prefixesEqual a b = true := by
  unfold prefixesEqual
  rw [if_neg (by simp [hp.length_eq])]
  have hperm : List.Perm (goSortByAddr a) (goSortByAddr b) :=
    ((goSortByAddr_perm a).trans hp).trans (goSortByAddr_perm b).symm
  have hda : (goSortByAddr a).Pairwise (fun p q => p.addr ≠ q.addr) :=
    (List.Perm.pairwise_iff (fun h => h.symm) (goSortByAddr_perm a)).mpr hd
  have := sorted_perm_eq (goSortByAddr a) (goSortByAddr b) hperm
    (goSortByAddr_pairwise a) (goSortByAddr_pairwise b) hda
  simp [this]

theorem perm_of_prefixesEqual {a b : List IPPrefix}
    (h : prefixesEqual a b = true) : List.Perm a b := by
  unfold prefixesEqual at h
  by_cases hl : a.length = b.length
  · rw [if_neg (by simp [hl])] at h
    have heq : goSortByAddr a = goSortByAddr b := by simpa using h
    exact ((goSortByAddr_perm a).symm.trans (heq ▸ List.Perm.refl _)).trans
      (goSortByAddr_perm b)
  · rw [if_pos (by simpa using hl)] at h
    cases h

/-- Modelled from the spec: the OS-reported interface descriptor (name,
hardware index, flags up/running/loopback, MTU); the netmon Interface type
itself is defined outside the sources at hand.  Equality compares all
descriptive fields. -/
structure Interface where
  name : String
  index : Nat
  mtu : Nat
  up : Bool
  running : Bool
  loopback : Bool
deriving DecidableEq, Repr

/-- Modelled from the spec: Interface.Equal compares all descriptive
fields. -/
def Interface.Equal (a b : Interface) : Bool := decide (a = b)

/-- Modelled from the spec: the immutable State snapshot with the interface
set, the per-interface address sets, the default-route interface name,
IPv4/IPv6 availability, expense flag and proxy/PAC configuration; the
netmon State type itself is defined outside the sources at hand.  Go maps
become association lists. -/
structure State where
  interface : List (String × Interface)
  interfaceIPs : List (String × List IPPrefix)
  defaultRouteInterface : String
  haveV4 : Bool
  haveV6 : Bool
  isExpensive : Bool
  pac : String
  httpProxy : String
deriving DecidableEq, Repr

/-- Go map indexing m[k]: first (only) binding of k, if any. -/
def lookupStr {β : Type} (k : String) : List (String × β) → Option β
  | [] => none
  | (k', v) :: rest => if k = k' then some v else lookupStr k rest

/-- A Go map never binds a key twice; association lists representing maps
carry this invariant. -/
def KeysNodup {β : Type} (m : List (String × β)) : Prop :=
  (m.map Prod.fst).Nodup

instance {β : Type} (m : List (String × β)) : Decidable (KeysNodup m) := by
  unfold KeysNodup
  infer_instance

/-- Modelled from the Go standard library: netip.Addr.IsLinkLocalMulticast
(224.0.0.0/24 for IPv4, ff02::/16 for IPv6). -/
def Addr.isLinkLocalMulticast : Addr → Bool
  | .v4 n => n / 256 = 224 * 65536
  | .v6 n => n / 2 ^ 112 = 0xff02

/-- filterRoutableIPs from netmon.go: drop link-local multicast addresses,
keep those usable per isUsableV4 / isUsableV6.  The two usability
predicates live outside the sources at hand, so their disjunction is a
parameter here. -/
def filterRoutableIPs (usable : Addr → Bool) (addrs : List IPPrefix) :
    List IPPrefix :=
  addrs.filter fun pfx => !pfx.addr.isLinkLocalMulticast && usable pfx.addr

theorem filterRoutableIPs_nil (usable : Addr → Bool) :
    filterRoutableIPs usable [] = [] := rfl

/-- ChangeDelta from netmon.go: the raw old/new states plus the eagerly
computed comparison flags. -/
structure ChangeDelta where
  Old : Option State
  New : Option State
  TimeJumped : Bool
  TailscaleIfaceName : String
  DefaultInterfaceChanged : Bool := false
  IsLessExpensive : Bool := false
  HasPACOrProxyConfigChanged : Bool := false
  InterfaceIPsChanged : Bool := false
  AvailableProtocolsChanged : Bool := false
  RebindLikelyRequired : Bool := false
deriving Repr

/-- One iteration of the old-to-new loop of isInterestingIntefaceChange:
skip the Tailscale interface, skip uninteresting interfaces, skip old
interfaces with no routable address, report a change when the interface or
its routable address set is missing or different on the new side. -/
def oldEntryChanged (isInteresting : Option (Interface → List IPPrefix → Bool))
    (usable : Addr → Bool) (newSt : State) (tsIfName : String)
    (iname : String) (oldInterface : Interface)
    (oldIpsRaw : List IPPrefix) : Bool :=
  if iname = tsIfName then false
  else
    let oldIps := filterRoutableIPs usable oldIpsRaw
    if (match isInteresting with
        | some f => !f oldInterface oldIps
        | none => false) then false
    else if oldIps.isEmpty then false
    else
      match lookupStr iname newSt.interface with
      | none => true
      | some newInterface =>
        match lookupStr iname newSt.interfaceIPs with
        | none => true
        | some newIpsRaw =>
          let newIps := filterRoutableIPs usable newIpsRaw
          !(Interface.Equal oldInterface newInterface) ||
            !(prefixesEqual oldIps newIps)

/-- One iteration of the new-to-old loop of isInterestingIntefaceChange,
the mirror image of oldEntryChanged. -/
def newEntryChanged (isInteresting : Option (Interface → List IPPrefix → Bool))
    (usable : Addr → Bool) (oldSt : State) (tsIfName : String)
    (iname : String) (newInterface : Interface)
    (newIpsRaw : List IPPrefix) : Bool :=
  if iname = tsIfName then false
  else
    let newIps := filterRoutableIPs usable newIpsRaw
    if (match isInteresting with
        | some f => !f newInterface newIps
        | none => false) then false
    else if newIps.isEmpty then false
    else
      match lookupStr iname oldSt.interface with
      | none => true
      | some oldInterface =>
        match lookupStr iname oldSt.interfaceIPs with
        | none => true
        | some oldIpsRaw =>
          let oldIps := filterRoutableIPs usable oldIpsRaw
          !(Interface.Equal newInterface oldInterface) ||
            !(prefixesEqual oldIps newIps)

/-- isInterestingIntefaceChange from netmon.go: if either side is nil the
change counts; otherwise compare the interface maps in both directions.
Each Go loop iteration either returns true or continues, so the loop result
is the disjunction over map entries (the IsInterestingInterface global and
the isUsableV4/isUsableV6 pair are parameters). -/
def ChangeDelta.isInterestingIntefaceChange
    (isInteresting : Option (Interface → List IPPrefix → Bool))
    (usable : Addr → Bool) (cd : ChangeDelta) : Bool :=
  match cd.Old, cd.New with
  | some oldSt, some newSt =>
    (oldSt.interface.any fun e =>
      oldEntryChanged isInteresting usable newSt cd.TailscaleIfaceName e.1 e.2
        ((lookupStr e.1 oldSt.interfaceIPs).getD [])) ||
    (newSt.interface.any fun e =>
      newEntryChanged isInteresting usable oldSt cd.TailscaleIfaceName e.1 e.2
        ((lookupStr e.1 newSt.interfaceIPs).getD []))
  | _, _ => true

/-- NewChangeDelta from netmon.go: builds the delta and eagerly computes
the cached flags.  A nil new state returns immediately with every computed
flag still false; a nil old state is a from-nothing transition; otherwise
each flag is computed independently; finally RebindLikelyRequired is the
disjunction of the individual facts. -/
def NewChangeDelta (isInteresting : Option (Interface → List IPPrefix → Bool))
    (usable : Addr → Bool) (old new : Option State) (timeJumped : Bool)
    (tsIfName : String) : ChangeDelta :=
  let cd : ChangeDelta :=
    { Old := old, New := new, TimeJumped := timeJumped,
      TailscaleIfaceName := tsIfName }
  match new with
  | none => cd
  | some n =>
    let cd :=
      match old with
      | none =>
        { cd with
          DefaultInterfaceChanged := decide (n.defaultRouteInterface ≠ ""),
          IsLessExpensive := false,
          HasPACOrProxyConfigChanged := true,
          InterfaceIPsChanged := true }
      | some o =>
        { cd with
          AvailableProtocolsChanged :=
            decide (o.haveV4 ≠ n.haveV4) || decide (o.haveV6 ≠ n.haveV6),
          DefaultInterfaceChanged :=
            decide (o.defaultRouteInterface ≠ n.defaultRouteInterface),
          IsLessExpensive := o.isExpensive && !n.isExpensive,
          HasPACOrProxyConfigChanged :=
            decide (o.pac ≠ n.pac) || decide (o.httpProxy ≠ n.httpProxy),
          InterfaceIPsChanged :=
            cd.isInterestingIntefaceChange isInteresting usable }
    { cd with
      RebindLikelyRequired :=
        cd.New.isNone || cd.Old.isNone || cd.TimeJumped ||
        cd.DefaultInterfaceChanged || cd.InterfaceIPsChanged ||
        cd.IsLessExpensive || cd.HasPACOrProxyConfigChanged ||
        cd.AvailableProtocolsChanged }

theorem lookupStr_of_mem_nodup {β : Type} {m : List (String × β)}
    (hnd : KeysNodup m) {k : String} {v : β} (h : (k, v) ∈ m) :
    lookupStr k m = some v := by
  induction m with
  | nil => cases h
  | cons e rest ih =>
    obtain ⟨k', v'⟩ := e
    unfold KeysNodup at hnd
    rw [List.map_cons, List.nodup_cons] at hnd
    obtain ⟨hk', hrest⟩ := hnd
    rcases List.mem_cons.mp h with heq | hmem
    · obtain ⟨rfl, rfl⟩ := Prod.mk.injEq .. ▸ heq
      simp [lookupStr]
    · have hne : k ≠ k' := by
        rintro rfl
        exact hk' (List.mem_map.mpr ⟨(k, v), hmem, rfl⟩)
      simp only [lookupStr, if_neg hne]
      exact ih hrest hmem

theorem oldEntryChanged_false_of_agree
    (isInteresting : Option (Interface → List IPPrefix → Bool))
    (usable : Addr → Bool) (oldSt newSt : State) (ts : String)
    (hndOld : KeysNodup oldSt.interface)
    (hIf : ∀ name, name ≠ ts →
      lookupStr name oldSt.interface = lookupStr name newSt.interface)
    (hIPs : ∀ name, name ≠ ts →
      prefixesEqual
        (filterRoutableIPs usable
          ((lookupStr name oldSt.interfaceIPs).getD []))
        (filterRoutableIPs usable
          ((lookupStr name newSt.interfaceIPs).getD [])) = true)
    (iname : String) (ifc : Interface) (hmem : (iname, ifc) ∈ oldSt.interface) :
    oldEntryChanged isInteresting usable newSt ts iname ifc
      ((lookupStr iname oldSt.interfaceIPs).getD []) = false := by
  by_cases hts : iname = ts
  · simp [oldEntryChanged, hts]
  have hlook : lookupStr iname newSt.interface = some ifc := by
    rw [← hIf iname hts]
    exact lookupStr_of_mem_nodup hndOld hmem
  have hips' := hIPs iname hts
  unfold oldEntryChanged
  rw [if_neg hts]
  simp only []
  rcases isInteresting with _ | f
  · simp only [Bool.false_eq_true, if_false]
    by_cases hemp : (filterRoutableIPs usable
        ((lookupStr iname oldSt.interfaceIPs).getD [])).isEmpty = true
    · rw [if_pos hemp]
    rw [if_neg hemp, hlook]
    rcases hips : lookupStr iname newSt.interfaceIPs with _ | rawNew
    · exfalso
      apply hemp
      rw [hips] at hips'
      rw [Option.getD_none, filterRoutableIPs_nil] at hips'
      have hnil := (perm_of_prefixesEqual hips').eq_nil
      rw [hnil]
      rfl
    · rw [hips] at hips'
      simp only [Option.getD_some] at hips'
      simp [hips', Interface.Equal]
  · by_cases hskip : (!f ifc (filterRoutableIPs usable
        ((lookupStr iname oldSt.interfaceIPs).getD []))) = true
    · rw [if_pos hskip]
    rw [if_neg hskip]
    by_cases hemp : (filterRoutableIPs usable
        ((lookupStr iname oldSt.interfaceIPs).getD [])).isEmpty = true
    · rw [if_pos hemp]
    rw [if_neg hemp, hlook]
    rcases hips : lookupStr iname newSt.interfaceIPs with _ | rawNew
    · exfalso
      apply hemp
      rw [hips] at hips'
      rw [Option.getD_none, filterRoutableIPs_nil] at hips'
      have hnil := (perm_of_prefixesEqual hips').eq_nil
      rw [hnil]
      rfl
    · rw [hips] at hips'
      simp only [Option.getD_some] at hips'
      simp [hips', Interface.Equal]

theorem newEntryChanged_false_of_agree
    (isInteresting : Option (Interface → List IPPrefix → Bool))
    (usable : Addr → Bool) (oldSt newSt : State) (ts : String)
    (hndNew : KeysNodup newSt.interface)
    (hIf : ∀ name, name ≠ ts →
      lookupStr name oldSt.interface = lookupStr name newSt.interface)
    (hIPs : ∀ name, name ≠ ts →
      prefixesEqual
        (filterRoutableIPs usable
          ((lookupStr name oldSt.interfaceIPs).getD []))
        (filterRoutableIPs usable
          ((lookupStr name newSt.interfaceIPs).getD [])) = true)
    (iname : String) (ifc : Interface) (hmem : (iname, ifc) ∈ newSt.interface) :
    newEntryChanged isInteresting usable oldSt ts iname ifc
      ((lookupStr iname newSt.interfaceIPs).getD []) = false := by
  by_cases hts : iname = ts
  · simp [newEntryChanged, hts]
  have hlook : lookupStr iname oldSt.interface = some ifc := by
    rw [hIf iname hts]
    exact lookupStr_of_mem_nodup hndNew hmem
  have hips' := hIPs iname hts
  unfold newEntryChanged
  rw [if_neg hts]
  simp only []
  rcases isInteresting with _ | f
  · simp only [Bool.false_eq_true, if_false]
    by_cases hemp : (filterRoutableIPs usable
        ((lookupStr iname newSt.interfaceIPs).getD [])).isEmpty = true
    · rw [if_pos hemp]
    rw [if_neg hemp, hlook]
    rcases hips : lookupStr iname oldSt.interfaceIPs with _ | rawOld
    · exfalso
      apply hemp
      rw [hips] at hips'
      rw [Option.getD_none, filterRoutableIPs_nil] at hips'
      have hnil := (perm_of_prefixesEqual hips').symm.eq_nil
      rw [hnil]
      rfl
    · rw [hips] at hips'
      simp only [Option.getD_some] at hips'
      simp [hips', Interface.Equal]
  · by_cases hskip : (!f ifc (filterRoutableIPs usable
        ((lookupStr iname newSt.interfaceIPs).getD []))) = true
    · rw [if_pos hskip]
    rw [if_neg hskip]
    by_cases hemp : (filterRoutableIPs usable
        ((lookupStr iname newSt.interfaceIPs).getD [])).isEmpty = true
    · rw [if_pos hemp]
    rw [if_neg hemp, hlook]
    rcases hips : lookupStr iname oldSt.interfaceIPs with _ | rawOld
    · exfalso
      apply hemp
      rw [hips] at hips'
      rw [Option.getD_none, filterRoutableIPs_nil] at hips'
      have hnil := (perm_of_prefixesEqual hips').symm.eq_nil
      rw [hnil]
      rfl
    · rw [hips] at hips'
      simp only [Option.getD_some] at hips'
      simp [hips', Interface.Equal]

/-- Two states that agree, away from the Tailscale interface, on every
interface descriptor, and whose filtered routable address lists are
accepted interface by interface by prefixesEqual, produce no interesting
interface change. -/
theorem isInterestingIntefaceChange_false_of_agree
    (isInteresting : Option (Interface → List IPPrefix → Bool))
    (usable : Addr → Bool) (oldSt newSt : State) (tj : Bool) (ts : String)
    (hndOld : KeysNodup oldSt.interface) (hndNew : KeysNodup newSt.interface)
    (hIf : ∀ name, name ≠ ts →
      lookupStr name oldSt.interface = lookupStr name newSt.interface)
    (hIPs : ∀ name, name ≠ ts →
      prefixesEqual
        (filterRoutableIPs usable
          ((lookupStr name oldSt.interfaceIPs).getD []))
        (filterRoutableIPs usable
          ((lookupStr name newSt.interfaceIPs).getD [])) = true) :
    ChangeDelta.isInterestingIntefaceChange isInteresting usable
      { Old := some oldSt, New := some newSt, TimeJumped := tj,
        TailscaleIfaceName := ts } = false := by
  unfold ChangeDelta.isInterestingIntefaceChange
  simp only [Bool.or_eq_false_iff]
  constructor
  · rw [List.any_eq_false]
    intro e he
    have := oldEntryChanged_false_of_agree isInteresting usable oldSt newSt ts
      hndOld hIf hIPs e.1 e.2 (by simpa using he)
    simp [this]
  · rw [List.any_eq_false]
    intro e he
    have := newEntryChanged_false_of_agree isInteresting usable oldSt newSt ts
      hndNew hIf hIPs e.1 e.2 (by simpa using he)
    simp [this]

/-- Monitor lifecycle state relevant to the stored-State invariant: the
stored snapshot, the static flag, and the started/closed flags. -/
structure MonitorModel where
  ifState : Option State
  static : Bool
  started : Bool
  closed : Bool
deriving DecidableEq, Repr

/-- New from netmon.go: take the initial snapshot (getState may fail; its
outcome is a parameter), then construct the OS monitor, which may also
fail; either failure aborts construction with an error. -/
def monitorNew (snapshot : Except String State) (osmonOk : Bool) :
    Except String MonitorModel :=
  match snapshot with
  | .error e => .error e
  | .ok st =>
    if osmonOk then
      .ok { ifState := some st, static := false, started := false,
            closed := false }
    else .error "newOSMon returned nil, nil"

/-- NewStatic from netmon.go: a static Monitor; a failing initial snapshot
is silently discarded, leaving the stored State nil. -/
def monitorNewStatic (snapshot : Except String State) : MonitorModel :=
  { ifState := match snapshot with | .ok st => some st | .error _ => none,
    static := true, started := false, closed := false }

/-- InterfaceState from netmon.go: the stored snapshot (nil only if never
set). -/
def MonitorModel.InterfaceState (m : MonitorModel) : Option State :=
  m.ifState

/-- Modelled from the spec: State equality is full structural equality, and
a nil state equals only nil (the State.Equal method lives outside the
sources at hand). -/
def optStateEqual (a b : Option State) : Bool := decide (a = b)

/-- handlePotentialChange from netmon.go: when nothing jumped, nothing is
forced and the re-taken snapshot equals the stored one, do nothing;
otherwise store the new snapshot and dispatch a delta.  Returns the updated
monitor and whether callbacks were invoked. -/
def MonitorModel.handlePotentialChange (m : MonitorModel) (newState : State)
    (timeJumped forceCallbacks : Bool) : MonitorModel × Bool :=
  if !timeJumped && !forceCallbacks && optStateEqual m.ifState (some newState)
  then (m, false)
  else ({ m with ifState := some newState }, true)

/-- Start from netmon.go, restricted to the fields modelled here. -/
def MonitorModel.start (m : MonitorModel) : MonitorModel :=
  if m.static then m
  else if m.started || m.closed then m
  else { m with started := true }

/-- Close from netmon.go: marks the monitor closed; the stored snapshot is
left in place. -/
def MonitorModel.close (m : MonitorModel) : MonitorModel :=
  if m.static then m
  else if m.closed then m
  else { m with closed := true }

/-- An operation on a constructed Monitor.  A debounce round whose
re-snapshot failed only logs and changes nothing, so only successful
re-snapshots appear. -/
inductive MonitorOp where
  | start
  | close
  | change (newState : State) (timeJumped force : Bool)

def MonitorModel.applyOp (m : MonitorModel) : MonitorOp → MonitorModel
  | .start => m.start
  | .close => m.close
  | .change st tj f => (m.handlePotentialChange st tj f).1

def MonitorModel.applyOps (m : MonitorModel) (ops : List MonitorOp) :
    MonitorModel :=
  ops.foldl MonitorModel.applyOp m

/-- The capacity-1 change channel, none when empty.  A non-blocking send
(select with a default arm) stores the value when the channel is empty and
drops it otherwise — exactly the select in InjectEvent and Poll. -/
def chanTrySend (c : Option Bool) (v : Bool) : Option Bool :=
  match c with
  | none => some v
  | some w => some w

/-- InjectEvent from netmon.go: a best-effort send of force=true into the
change channel. -/
def injectEvent (c : Option Bool) : Option Bool := chanTrySend c true

/-- Poll from netmon.go: a best-effort send of force=false into the change
channel. -/
def pollMonitor (c : Option Bool) : Option Bool := chanTrySend c false

/-- Modelled from the Go standard library: net.Interface as the prober uses
it — name, index, flags, and the address list that iface.Addrs reports. -/
structure NetInterface where
  name : String
  index : Nat
  up : Bool
  running : Bool
  loopback : Bool
  addrs : List IPPrefix
deriving DecidableEq, Repr

/-- Modelled from the Go standard library: net.IP.IsGlobalUnicast — not
unspecified, not the IPv4 broadcast, not loopback, not multicast, not
link-local unicast. -/
def Addr.isGlobalUnicast : Addr → Bool
  | .v4 n =>
    n ≠ 0xffffffff && n ≠ 0 && n / 2 ^ 24 ≠ 127 && n / 2 ^ 28 ≠ 14 &&
      n / 2 ^ 16 ≠ 0xa9fe
  | .v6 n =>
    n ≠ 0 && n ≠ 1 && n / 2 ^ 120 ≠ 0xff && n / 2 ^ 118 ≠ 0x3fa

/-- ifaceHasV4OrGlobalV6 from netns: despite its name and stale doc
comment, its body reports whether ANY address of the interface is a global
unicast address, IPv4 or IPv6 alike. -/
def ifaceHasV4OrGlobalV6 (iface : NetInterface) : Bool :=
  iface.addrs.any fun p => p.addr.isGlobalUnicast

/-- tailscaleInterface from netns: the first enumerated interface carrying
a Tailscale address, if any.  tsaddr.IsTailscaleIP lives outside the
sources at hand and is a parameter. -/
def tailscaleInterface (isTailscaleIP : Addr → Bool) :
    List NetInterface → Option NetInterface
  | [] => none
  | iface :: rest =>
    if iface.addrs.any (fun p => isTailscaleIP p.addr) then some iface
    else tailscaleInterface isTailscaleIP rest

/-- The candidate-selection loop in probeInterfacesReachability: skip
interfaces the platform filter rejects, those not up, not running or
loopback, the Tailscale interface, and those without a global unicast
address. -/
def candidateLoop (filterf : Option (NetInterface → Bool))
    (tsiface : Option NetInterface) : List NetInterface → List NetInterface
  | [] => []
  | iface :: rest =>
    if (match filterf with | some f => !f iface | none => false) then
      candidateLoop filterf tsiface rest
    else if !iface.up || iface.loopback || !iface.running then
      candidateLoop filterf tsiface rest
    else if (match tsiface with
             | some t => decide (iface.index = t.index)
             | none => false) then
      candidateLoop filterf tsiface rest
    else if !ifaceHasV4OrGlobalV6 iface then
      candidateLoop filterf tsiface rest
    else iface :: candidateLoop filterf tsiface rest

/-- The candidate set of probeInterfacesReachability. -/
def probeCandidates (filterf : Option (NetInterface → Bool))
    (isTailscaleIP : Addr → Bool) (ifaces : List NetInterface) :
    List NetInterface :=
  candidateLoop filterf (tailscaleInterface isTailscaleIP ifaces) ifaces

/-- inetReachability from netns: one probe result per candidate. -/
structure InetReachability where
  iface : NetInterface
  reachable : Bool
  errMsg : Option String
deriving DecidableEq, Repr

/-- probeInterfacesReachability from netns, with each concurrent dial
outcome given by an oracle and the collection loop taken on its complete
(no timeout) path: zero candidates is a hard error, otherwise one result
per candidate. -/
def probeInterfacesReachability (filterf : Option (NetInterface → Bool))
    (isTailscaleIP : Addr → Bool) (reach : NetInterface → Bool)
    (ifaces : List NetInterface) :
    List InetReachability × Option String :=
  let cands := probeCandidates filterf isTailscaleIP ifaces
  if cands.isEmpty then ([], some "no candidate interfaces")
  else
    (cands.map fun i =>
      { iface := i, reachable := reach i,
        errMsg := if reach i then none else some "dial error" }, none)

/-- findInterfaceThatCanReach from netns: probe, keep the reachable
results, return (nil, nil) when none is reachable; otherwise apply the
sorter, take the first result, and prefer the default-interface hint when
one of the results matches it.  (A sorter returning an empty slice would
make the Go code panic; that branch yields (nil, nil) here and is not used
by any claim.) -/
def findInterfaceThatCanReach (filterf : Option (NetInterface → Bool))
    (isTailscaleIP : Addr → Bool) (reach : NetInterface → Bool)
    (sortf : Option (List InetReachability → List InetReachability))
    (defaultIfaceHint : Option Nat) (ifaces : List NetInterface) :
    Option NetInterface × Option String :=
  let pr := probeInterfacesReachability filterf isTailscaleIP reach ifaces
  match pr.2 with
  | some e => (none, some e)
  | none =>
    let res := pr.1.filter fun r => r.reachable
    if res.isEmpty then (none, none)
    else
      let res := match sortf with | some f => f res | none => res
      match res with
      | [] => (none, none)
      | r :: _ =>
        let iface :=
          match defaultIfaceHint with
          | none => r.iface
          | some idx =>
            match res.find? (fun r2 => decide (r2.iface.index = idx)) with
            | some r2 => r2.iface
            | none => r.iface
        (some iface, none)

/-- A small concrete state used by concrete instantiations below. -/
def sampleState : State :=
  { interface := [("eth0",
      { name := "eth0", index := 2, mtu := 1500, up := true, running := true,
        loopback := false })],
    interfaceIPs := [("eth0", [⟨ipv4 10 0 0 1, 24⟩])],
    defaultRouteInterface := "eth0",
    haveV4 := true, haveV6 := false, isExpensive := false,
    pac := "", httpProxy := "" }

theorem NewChangeDelta_none_new (isInteresting usable old tj ts) :
    NewChangeDelta isInteresting usable old none tj ts =
      { Old := old, New := none, TimeJumped := tj,
        TailscaleIfaceName := ts } := rfl

theorem NewChangeDelta_none_old (isInteresting usable n tj ts) :
    NewChangeDelta isInteresting usable none (some n) tj ts =
      { Old := none, New := some n, TimeJumped := tj,
        TailscaleIfaceName := ts,
        DefaultInterfaceChanged := decide (n.defaultRouteInterface ≠ ""),
        IsLessExpensive := false,
        HasPACOrProxyConfigChanged := true,
        InterfaceIPsChanged := true,
        AvailableProtocolsChanged := false,
        RebindLikelyRequired := true } := rfl

theorem NewChangeDelta_some_some (isInteresting usable o n tj ts) :
    NewChangeDelta isInteresting usable (some o) (some n) tj ts =
      { Old := some o, New := some n, TimeJumped := tj,
        TailscaleIfaceName := ts,
        DefaultInterfaceChanged :=
          decide (o.defaultRouteInterface ≠ n.defaultRouteInterface),
        IsLessExpensive := o.isExpensive && !n.isExpensive,
        HasPACOrProxyConfigChanged :=
          decide (o.pac ≠ n.pac) || decide (o.httpProxy ≠ n.httpProxy),
        InterfaceIPsChanged :=
          ChangeDelta.isInterestingIntefaceChange isInteresting usable
            { Old := some o, New := some n, TimeJumped := tj,
              TailscaleIfaceName := ts },
        AvailableProtocolsChanged :=
          decide (o.haveV4 ≠ n.haveV4) || decide (o.haveV6 ≠ n.haveV6),
        RebindLikelyRequired :=
          tj ||
          decide (o.defaultRouteInterface ≠ n.defaultRouteInterface) ||
          ChangeDelta.isInterestingIntefaceChange isInteresting usable
            { Old := some o, New := some n, TimeJumped := tj,
              TailscaleIfaceName := ts } ||
          (o.isExpensive && !n.isExpensive) ||
          (decide (o.pac ≠ n.pac) || decide (o.httpProxy ≠ n.httpProxy)) ||
          (decide (o.haveV4 ≠ n.haveV4) || decide (o.haveV6 ≠ n.haveV6)) }
      := rfl

/-- C2 counterexample: with a nil new state, two of the claim's disjuncts
hold (new is nil, and here also timeJumped), yet NewChangeDelta returns
before computing RebindLikelyRequired, leaving it false. -/
theorem C2_nil_new_rebind_false :
    (NewChangeDelta none (fun _ => true) none none true "").New = none ∧
    (NewChangeDelta none (fun _ => true) none none true "").TimeJumped = true ∧
    (NewChangeDelta none (fun _ => true) none none true "").RebindLikelyRequired
      = false :=
  ⟨rfl, rfl, rfl⟩

/-- C2 (amended): for a NON-NIL new state, RebindLikelyRequired is true
whenever the old state is nil, time jumped, or any of the computed change
flags (default interface, interesting IPs, less expensive, proxy/PAC,
family availability) is set.  With a nil new state the function returns
early with every computed field false. -/
theorem C2_rebind_if_any_flag
    (isInteresting : Option (Interface → List IPPrefix → Bool))
    (usable : Addr → Bool) (old : Option State) (n : State) (tj : Bool)
    (ts : String)
    (h : old = none ∨ tj = true ∨
      (NewChangeDelta isInteresting usable old (some n) tj ts).DefaultInterfaceChanged = true ∨
      (NewChangeDelta isInteresting usable old (some n) tj ts).InterfaceIPsChanged = true ∨
      (NewChangeDelta isInteresting usable old (some n) tj ts).IsLessExpensive = true ∨
      (NewChangeDelta isInteresting usable old (some n) tj ts).HasPACOrProxyConfigChanged = true ∨
      (NewChangeDelta isInteresting usable old (some n) tj ts).AvailableProtocolsChanged = true) :
    (NewChangeDelta isInteresting usable old (some n) tj ts).RebindLikelyRequired
      = true := by
  rcases h with h | h
  · subst h
    rw [NewChangeDelta_none_old]
  · rcases old with _ | o
    · rw [NewChangeDelta_none_old]
    · rw [NewChangeDelta_some_some] at h ⊢
      dsimp only at h ⊢
      rcases h with h | h | h | h | h | h <;> rw [h] <;> simp

/-- C2 witness: a concrete instantiation with a nil old state. -/
theorem C2_rebind_if_any_flag_witness :
    (NewChangeDelta none (fun _ => true) none (some sampleState) false
      "").RebindLikelyRequired = true :=
  C2_rebind_if_any_flag none (fun _ => true) none sampleState false ""
    (Or.inl rfl)

/-- C3 counterexample: the pair (nil old, nil new) falls under the claim's
quantifier, yet the delta has InterfaceIPsChanged, the proxy flag and
RebindLikelyRequired all false rather than true. -/
theorem C3_nil_nil_counterexample :
    (NewChangeDelta none (fun _ => true) none none false "").Old = none ∧
    (NewChangeDelta none (fun _ => true) none none false "").InterfaceIPsChanged
      = false ∧
    (NewChangeDelta none (fun _ => true) none none false
      "").HasPACOrProxyConfigChanged = false ∧
    (NewChangeDelta none (fun _ => true) none none false
      "").RebindLikelyRequired = false :=
  ⟨rfl, rfl, rfl, rfl⟩

/-- C3 (amended): for a nil old state and a NON-NIL new state,
NewChangeDelta reports DefaultInterfaceChanged exactly when the new
default-route interface is non-empty, InterfaceIPsChanged and the
proxy/PAC flag true, IsLessExpensive false, and RebindLikelyRequired
true. -/
theorem C3_from_nothing_transition
    (isInteresting : Option (Interface → List IPPrefix → Bool))
    (usable : Addr → Bool) (n : State) (tj : Bool) (ts : String) :
    (NewChangeDelta isInteresting usable none (some n) tj ts).DefaultInterfaceChanged
      = decide (n.defaultRouteInterface ≠ "") ∧
    (NewChangeDelta isInteresting usable none (some n) tj ts).InterfaceIPsChanged
      = true ∧
    (NewChangeDelta isInteresting usable none (some n) tj ts).HasPACOrProxyConfigChanged
      = true ∧
    (NewChangeDelta isInteresting usable none (some n) tj ts).IsLessExpensive
      = false ∧
    (NewChangeDelta isInteresting usable none (some n) tj ts).RebindLikelyRequired
      = true :=
  ⟨rfl, rfl, rfl, rfl, rfl⟩

/-- C4: diffing a well-formed state against itself with no time jump and an
empty Tailscale interface name sets no change flag and does not require a
rebind. -/
theorem C4_diff_self_no_change
    (isInteresting : Option (Interface → List IPPrefix → Bool))
    (usable : Addr → Bool) (S : State) (hnd : KeysNodup S.interface) :
    (NewChangeDelta isInteresting usable (some S) (some S) false
      "").RebindLikelyRequired = false ∧
    (NewChangeDelta isInteresting usable (some S) (some S) false
      "").DefaultInterfaceChanged = false ∧
    (NewChangeDelta isInteresting usable (some S) (some S) false
      "").InterfaceIPsChanged = false ∧
    (NewChangeDelta isInteresting usable (some S) (some S) false
      "").IsLessExpensive = false ∧
    (NewChangeDelta isInteresting usable (some S) (some S) false
      "").HasPACOrProxyConfigChanged = false ∧
    (NewChangeDelta isInteresting usable (some S) (some S) false
      "").AvailableProtocolsChanged = false := by
  have hip := isInterestingIntefaceChange_false_of_agree isInteresting usable
    S S false "" hnd hnd (fun _ _ => rfl)
    (fun _ _ => prefixesEqual_self _)
  rw [NewChangeDelta_some_some]
  simp [hip]

/-- C4 witness: the concrete sample state. -/
theorem C4_diff_self_no_change_witness :
    KeysNodup sampleState.interface ∧
    (NewChangeDelta none (fun _ => true) (some sampleState) (some sampleState)
      false "").RebindLikelyRequired = false :=
  ⟨by decide,
   (C4_diff_self_no_change none (fun _ => true) sampleState (by decide)).1⟩

/-- C5 (amended): the interesting-IP comparison depends only on non-mesh
interfaces' descriptors and their filtered routable address lists as
compared by prefixesEqual: when, for every interface name other than the
mesh client's own, the descriptors agree and prefixesEqual accepts the two
filtered routable address lists (set equality ignoring order whenever the
addresses are pairwise distinct, but order-sensitive on an address repeated
with different prefix lengths), InterfaceIPsChanged is false.  In
particular a delta touching only the mesh interface's addresses, or only
link-local-multicast addresses, yields InterfaceIPsChanged false. -/
theorem C5_interfaceIPs_frame
    (isInteresting : Option (Interface → List IPPrefix → Bool))
    (usable : Addr → Bool) (tj : Bool) (ts : String) (oldSt newSt : State)
    (hndOld : KeysNodup oldSt.interface) (hndNew : KeysNodup newSt.interface)
    (hIf : ∀ name, name ≠ ts →
      lookupStr name oldSt.interface = lookupStr name newSt.interface)
    (hIPs : ∀ name, name ≠ ts →
      prefixesEqual
        (filterRoutableIPs usable
          ((lookupStr name oldSt.interfaceIPs).getD []))
        (filterRoutableIPs usable
          ((lookupStr name newSt.interfaceIPs).getD [])) = true) :
    (NewChangeDelta isInteresting usable (some oldSt) (some newSt) tj
      ts).InterfaceIPsChanged = false := by
  rw [NewChangeDelta_some_some]
  exact isInterestingIntefaceChange_false_of_agree isInteresting usable
    oldSt newSt tj ts hndOld hndNew hIf hIPs


/-- C6 counterexample: two prefixes with the same address but different bit
counts.  The two lists are permutations of each other, but prefixesEqual
sorts only by address, each sort keeps its input order on the tied
elements, and the element-wise comparison fails. -/
theorem C6_same_addr_perm_counterexample :
    List.Perm
      [IPPrefix.mk (ipv4 10 1 2 3) 24, IPPrefix.mk (ipv4 10 1 2 3) 32]
      [IPPrefix.mk (ipv4 10 1 2 3) 32, IPPrefix.mk (ipv4 10 1 2 3) 24] ∧
    prefixesEqual
      [IPPrefix.mk (ipv4 10 1 2 3) 24, IPPrefix.mk (ipv4 10 1 2 3) 32]
      [IPPrefix.mk (ipv4 10 1 2 3) 32, IPPrefix.mk (ipv4 10 1 2 3) 24]
      = false := by
  constructor
  · decide
  · decide

/-- C6 (amended): prefixesEqual is true on permutations whose addresses are
pairwise distinct (so the address-only sort orders both lists the same
way), and whenever it is true its arguments really are permutations of
each other — hence it is false on every pair that is not multiset-equal. -/
theorem C6_prefixesEqual_set_semantics (a b : List IPPrefix) :
    (List.Perm a b → a.Pairwise (fun p q => p.addr ≠ q.addr) →
      prefixesEqual a b = true) ∧
    (prefixesEqual a b = true → List.Perm a b) :=
  ⟨fun hp hd => prefixesEqual_of_perm_of_distinct hp hd,
   fun h => perm_of_prefixesEqual h⟩

/-- C6 witness: a concrete permutation with distinct addresses, and a
concrete non-permutation rejected. -/
theorem C6_prefixesEqual_set_semantics_witness :
    prefixesEqual
      [IPPrefix.mk (ipv4 10 0 0 1) 24, IPPrefix.mk (ipv4 10 0 0 2) 32]
      [IPPrefix.mk (ipv4 10 0 0 2) 32, IPPrefix.mk (ipv4 10 0 0 1) 24]
      = true :=
  (C6_prefixesEqual_set_semantics
    [IPPrefix.mk (ipv4 10 0 0 1) 24, IPPrefix.mk (ipv4 10 0 0 2) 32]
    [IPPrefix.mk (ipv4 10 0 0 2) 32, IPPrefix.mk (ipv4 10 0 0 1) 24]).1
    (by decide) (by decide)

/-- The candidate test as the claim words it — refinement comparison
definition following the claim text, not the source: at least one IPv4
address, or at least one globally routable IPv6 address. -/
def claimHasV4OrGlobalV6 (iface : NetInterface) : Bool :=
  (iface.addrs.any fun p =>
    match p.addr with | .v4 _ => true | .v6 _ => false) ||
  (iface.addrs.any fun p =>
    match p.addr with | .v4 _ => false | .v6 _ => p.addr.isGlobalUnicast)

/-- C7 counterexample: an up, running, non-loopback interface whose only
address is the IPv4 link-local 169.254.1.1.  It carries an IPv4 address,
so the claim admits it as a candidate, but the code requires a global
unicast address and rejects it, leaving the candidate set empty. -/
theorem C7_linklocal_v4_counterexample :
    probeCandidates none (fun _ => false)
      [{ name := "eth0", index := 2, up := true, running := true,
         loopback := false, addrs := [IPPrefix.mk (ipv4 169 254 1 1) 16] }]
      = [] ∧
    ([{ name := "eth0", index := 2, up := true, running := true,
        loopback := false,
        addrs := [IPPrefix.mk (ipv4 169 254 1 1) 16] }].filter
      fun i : NetInterface =>
        i.up && i.running && !i.loopback && claimHasV4OrGlobalV6 i) =
      [{ name := "eth0", index := 2, up := true, running := true,
         loopback := false, addrs := [IPPrefix.mk (ipv4 169 254 1 1) 16] }] := by
  constructor
  · decide
  · decide

/-- The candidate-selection loop is the filter by the conjunction of its
skip conditions. -/
theorem candidateLoop_eq_filter (filterf : Option (NetInterface → Bool))
    (tsiface : Option NetInterface) (ifaces : List NetInterface) :
    candidateLoop filterf tsiface ifaces = ifaces.filter fun iface =>
      (match filterf with | some f => f iface | none => true) &&
      iface.up && iface.running && !iface.loopback &&
      (match tsiface with
       | some t => decide (iface.index ≠ t.index)
       | none => true) &&
      ifaceHasV4OrGlobalV6 iface := by
  rcases filterf with _ | f
  · rcases tsiface with _ | t
    · induction ifaces with
      | nil => rfl
      | cons i rest ih =>
        unfold candidateLoop
        rw [List.filter_cons, ih]
        rcases hu : i.up <;> rcases hr : i.running <;>
          rcases hl : i.loopback <;> rcases hg : ifaceHasV4OrGlobalV6 i <;>
          simp_all
    · induction ifaces with
      | nil => rfl
      | cons i rest ih =>
        unfold candidateLoop
        rw [List.filter_cons, ih]
        rcases hu : i.up <;> rcases hr : i.running <;>
          rcases hl : i.loopback <;> rcases hg : ifaceHasV4OrGlobalV6 i <;>
          by_cases hx : i.index = t.index <;> simp_all
  · rcases tsiface with _ | t
    · induction ifaces with
      | nil => rfl
      | cons i rest ih =>
        unfold candidateLoop
        rw [List.filter_cons, ih]
        rcases hf : f i <;> rcases hu : i.up <;> rcases hr : i.running <;>
          rcases hl : i.loopback <;> rcases hg : ifaceHasV4OrGlobalV6 i <;>
          simp_all
    · induction ifaces with
      | nil => rfl
      | cons i rest ih =>
        unfold candidateLoop
        rw [List.filter_cons, ih]
        rcases hf : f i <;> rcases hu : i.up <;> rcases hr : i.running <;>
          rcases hl : i.loopback <;> rcases hg : ifaceHasV4OrGlobalV6 i <;>
          by_cases hx : i.index = t.index <;> simp_all

/-- C7 (amended): the reachability prober's candidate set contains exactly
the enumerated interfaces that pass the caller's filter, are up, running
and non-loopback, are not the Tailscale interface, and carry at least one
global unicast address (IPv4 or IPv6) — not "any IPv4 or globally routable
IPv6" as the claim words it. -/
theorem C7_candidate_set (filterf : Option (NetInterface → Bool))
    (isTailscaleIP : Addr → Bool) (ifaces : List NetInterface) :
    probeCandidates filterf isTailscaleIP ifaces = ifaces.filter fun iface =>
      (match filterf with | some f => f iface | none => true) &&
      iface.up && iface.running && !iface.loopback &&
      (match tailscaleInterface isTailscaleIP ifaces with
       | some t => decide (iface.index ≠ t.index)
       | none => true) &&
      ifaceHasV4OrGlobalV6 iface := by
  unfold probeCandidates
  exact candidateLoop_eq_filter filterf
    (tailscaleInterface isTailscaleIP ifaces) ifaces



/-- C1 counterexample: with a single loopback interface zero candidates
survive filtering and findInterfaceThatCanReach returns a non-nil
"no candidate interfaces" error rather than (nil, nil); the same happens
when the caller's filter predicate rejects the only up interface. -/
theorem C1_zero_candidates_error :
    findInterfaceThatCanReach none (fun _ => false) (fun _ => true) none none
      [{ name := "lo", index := 1, up := true, running := true,
         loopback := true, addrs := [IPPrefix.mk (ipv4 127 0 0 1) 8] }] =
      (none, some "no candidate interfaces") ∧
    findInterfaceThatCanReach (some fun _ => false) (fun _ => false)
      (fun _ => true) none none
      [{ name := "eth0", index := 2, up := true, running := true,
         loopback := false, addrs := [IPPrefix.mk (ipv4 10 0 0 1) 24] }] =
      (none, some "no candidate interfaces") := by
  constructor
  · rfl
  · rfl

/-- C1 (amended): when zero candidate interfaces survive filtering the
probe fails with a "no candidate interfaces" error and
findInterfaceThatCanReach passes that error through as (nil, error);
(nil, nil) is returned in the distinct case where candidates exist but
none of them can reach the destination. -/
theorem C1_probe_zero_candidates (filterf : Option (NetInterface → Bool))
    (isTailscaleIP : Addr → Bool) (reach : NetInterface → Bool)
    (sortf : Option (List InetReachability → List InetReachability))
    (hint : Option Nat) (ifaces : List NetInterface) :
    (probeCandidates filterf isTailscaleIP ifaces = [] →
      probeInterfacesReachability filterf isTailscaleIP reach ifaces =
        ([], some "no candidate interfaces") ∧
      findInterfaceThatCanReach filterf isTailscaleIP reach sortf hint
        ifaces = (none, some "no candidate interfaces")) ∧
    (probeCandidates filterf isTailscaleIP ifaces ≠ [] →
      (∀ i ∈ probeCandidates filterf isTailscaleIP ifaces,
        reach i = false) →
      findInterfaceThatCanReach filterf isTailscaleIP reach sortf hint
        ifaces = (none, none)) := by
  constructor
  · intro h
    constructor
    · simp [probeInterfacesReachability, h]
    · simp [findInterfaceThatCanReach, probeInterfacesReachability, h]
  · intro hne hall
    have hemp : (probeCandidates filterf isTailscaleIP ifaces).isEmpty
        = false := by
      simpa [List.isEmpty_iff] using hne
    have hfil : (((probeCandidates filterf isTailscaleIP ifaces).map fun i =>
        ({ iface := i, reachable := reach i,
           errMsg := if reach i then none else some "dial error" } :
          InetReachability)).filter fun r => r.reachable) = [] := by
      rw [List.filter_eq_nil_iff]
      intro r hr
      rcases List.mem_map.mp hr with ⟨i, hi, rfl⟩
      simp [hall i hi]
    simp [findInterfaceThatCanReach, probeInterfacesReachability, hemp, hfil]

/-- C1 witness: a loopback-only enumeration yields the error; an
unreachable real candidate yields (nil, nil). -/
theorem C1_probe_zero_candidates_witness :
    findInterfaceThatCanReach none (fun _ => false) (fun _ => false) none none
      [{ name := "lo", index := 1, up := true, running := true,
         loopback := true, addrs := [IPPrefix.mk (ipv4 127 0 0 1) 8] }] =
      (none, some "no candidate interfaces") ∧
    findInterfaceThatCanReach none (fun _ => false) (fun _ => false) none none
      [{ name := "eth1", index := 3, up := true, running := true,
         loopback := false, addrs := [IPPrefix.mk (ipv4 10 0 0 2) 24] }] =
      (none, none) := by
  constructor
  · exact ((C1_probe_zero_candidates none (fun _ => false) (fun _ => false)
      none none _).1 (by decide)).2
  · exact (C1_probe_zero_candidates none (fun _ => false) (fun _ => false)
      none none _).2 (by decide) (fun i _ => rfl)

theorem start_ifState (m : MonitorModel) : m.start.ifState = m.ifState := by
  unfold MonitorModel.start
  split
  · rfl
  split
  · rfl
  · rfl

theorem close_ifState (m : MonitorModel) : m.close.ifState = m.ifState := by
  unfold MonitorModel.close
  split
  · rfl
  split
  · rfl
  · rfl

theorem handlePotentialChange_ifState_some (m : MonitorModel) (st : State)
    (tj f : Bool) (h : m.ifState.isSome = true) :
    ((m.handlePotentialChange st tj f).1).ifState.isSome = true := by
  unfold MonitorModel.handlePotentialChange
  split
  · exact h
  · rfl

theorem applyOp_preserves_ifState_some {m : MonitorModel}
    (h : m.ifState.isSome = true) (op : MonitorOp) :
    (m.applyOp op).ifState.isSome = true := by
  rcases op with _ | _ | ⟨st, tj, f⟩
  · unfold MonitorModel.applyOp
    rw [start_ifState]
    exact h
  · unfold MonitorModel.applyOp
    rw [close_ifState]
    exact h
  · exact handlePotentialChange_ifState_some m st tj f h

theorem applyOps_preserves_ifState_some {m : MonitorModel}
    (h : m.ifState.isSome = true) (ops : List MonitorOp) :
    ((m.applyOps ops).ifState).isSome = true := by
  induction ops generalizing m with
  | nil => exact h
  | cons op rest ih =>
    unfold MonitorModel.applyOps
    rw [List.foldl_cons]
    exact ih (applyOp_preserves_ifState_some h op)

theorem monitorNew_ok_ifState {snapshot : Except String State}
    {osmonOk : Bool} {m : MonitorModel}
    (h : monitorNew snapshot osmonOk = Except.ok m) :
    m.ifState.isSome = true := by
  rcases snapshot with e | st
  · exact absurd h (by simp [monitorNew])
  · rcases osmonOk with _ | _
    · exact absurd h (by simp [monitorNew])
    · unfold monitorNew at h
      simp only [if_true] at h
      rcases h with ⟨⟩
      rfl

/-- C8 counterexample: NewStatic swallows a failing initial snapshot and
returns a static Monitor whose stored State is nil, so InterfaceState
returns nil even though construction returned a Monitor. -/
theorem C8_static_nil_counterexample :
    (monitorNewStatic (Except.error "getState failed")).InterfaceState
      = none := rfl

/-- C8 (amended): a Monitor built by New — whose construction FAILS on a
snapshot or OS-monitor error — holds a non-nil State, and it stays non-nil
across every sequence of operations; NewStatic guarantees the same only
when its initial snapshot succeeded. -/
theorem C8_ifState_never_nil (snapshot : Except String State)
    (osmonOk : Bool) (m : MonitorModel) (ops : List MonitorOp) (st : State)
    (h : monitorNew snapshot osmonOk = Except.ok m) :
    ((m.applyOps ops).InterfaceState).isSome = true ∧
    (((monitorNewStatic (Except.ok st)).applyOps
      ops).InterfaceState).isSome = true := by
  constructor
  · exact applyOps_preserves_ifState_some (monitorNew_ok_ifState h) ops
  · have hst : (monitorNewStatic (Except.ok st)).ifState.isSome = true := rfl
    exact applyOps_preserves_ifState_some hst ops

/-- C8 witness: a concrete monitor driven through start, a change and
close. -/
theorem C8_ifState_never_nil_witness :
    (((MonitorModel.mk (some sampleState) false false false).applyOps
      [MonitorOp.start, MonitorOp.change sampleState false true,
       MonitorOp.close]).InterfaceState).isSome = true ∧
    (((monitorNewStatic (Except.ok sampleState)).applyOps
      [MonitorOp.start, MonitorOp.change sampleState false true,
       MonitorOp.close]).InterfaceState).isSome = true :=
  C8_ifState_never_nil (Except.ok sampleState) true
    (MonitorModel.mk (some sampleState) false false false)
    [MonitorOp.start, MonitorOp.change sampleState false true,
     MonitorOp.close] sampleState rfl

/-- C9: the InjectEvent force flag is lost when a Poll signal is already
buffered in the capacity-1 change channel: the buffered value stays false,
and the following debounce round with an unchanged re-taken snapshot
dispatches no callbacks — although the same round with force=true would
have dispatched them. -/
theorem C9_inject_force_lost :
    injectEvent (pollMonitor none) = some false ∧
    (MonitorModel.handlePotentialChange
      { ifState := some sampleState, static := false, started := true,
        closed := false } sampleState false false).2 = false ∧
    (MonitorModel.handlePotentialChange
      { ifState := some sampleState, static := false, started := true,
        closed := false } sampleState false true).2 = true := by
  refine ⟨rfl, by decide, rfl⟩

/-- A heap of Go slices, to state the frame property: handles are indices
and allocation appends at the end. -/
abbrev SliceStore := List (List IPPrefix)

def storeRead (s : SliceStore) (h : Nat) : List IPPrefix := s.getD h []

/-- make plus copy: a fresh slice whose contents are those of v. -/
def storeAlloc (s : SliceStore) (v : List IPPrefix) : SliceStore × Nat :=
  (s ++ [v], s.length)

/-- slices.SortFunc in place at a handle. -/
def storeSortAt (s : SliceStore) (h : Nat) : SliceStore :=
  s.set h (goSortByAddr (storeRead s h))

/-- prefixesEqual as it executes on the slice heap: early return on a
length mismatch, copy both argument slices into fresh ones, sort the
copies in place, compare element-wise. -/
def prefixesEqualStore (s : SliceStore) (ha hb : Nat) : Bool × SliceStore :=
  if (storeRead s ha).length ≠ (storeRead s hb).length then (false, s)
  else
    let al := storeAlloc s (storeRead s ha)
    let bl := storeAlloc al.1 (storeRead s hb)
    let s3 := storeSortAt bl.1 al.2
    let s4 := storeSortAt s3 bl.2
    (decide (storeRead s4 al.2 = storeRead s4 bl.2), s4)

theorem storeRead_append {s : SliceStore} {v : List IPPrefix} {h : Nat}
    (hh : h < s.length) : storeRead (s ++ [v]) h = storeRead s h := by
  unfold storeRead
  rw [List.getD_eq_getElem?_getD, List.getD_eq_getElem?_getD,
    List.getElem?_append, if_pos hh]

theorem storeRead_set_ne {s : SliceStore} {i j : Nat} {v : List IPPrefix}
    (hij : i ≠ j) : storeRead (s.set i v) j = storeRead s j := by
  unfold storeRead
  rw [List.getD_eq_getElem?_getD, List.getD_eq_getElem?_getD,
    List.getElem?_set_ne hij]

theorem storeRead_set_eq {s : SliceStore} {i : Nat} {v : List IPPrefix}
    (hi : i < s.length) : storeRead (s.set i v) i = v := by
  unfold storeRead
  rw [List.getD_eq_getElem?_getD, List.getElem?_set_self hi]
  rfl

theorem storeRead_alloc_new {s : SliceStore} {v : List IPPrefix} :
    storeRead (s ++ [v]) s.length = v := by
  unfold storeRead
  rw [List.getD_eq_getElem?_getD, List.getElem?_append_right (Nat.le_refl _)]
  simp

/-- C10: prefixesEqual never mutates its argument slices: it copies both
and sorts the private copies, so the slices at the argument handles hold
the same elements in the same order afterwards, and the computed result
agrees with the pure prefixesEqual. -/
theorem C10_prefixesEqual_no_mutation (s : SliceStore) (ha hb : Nat)
    (hha : ha < s.length) (hhb : hb < s.length) :
    storeRead (prefixesEqualStore s ha hb).2 ha = storeRead s ha ∧
    storeRead (prefixesEqualStore s ha hb).2 hb = storeRead s hb ∧
    (prefixesEqualStore s ha hb).1 =
      prefixesEqual (storeRead s ha) (storeRead s hb) := by
  by_cases hlen : (storeRead s ha).length = (storeRead s hb).length
  · have h2 : (s ++ [storeRead s ha]).length = s.length + 1 := by simp
    have hra : storeRead ((s ++ [storeRead s ha]) ++ [storeRead s hb]) ha
        = storeRead s ha := by
      rw [storeRead_append (by simpa using Nat.lt_succ_of_lt hha),
        storeRead_append hha]
    have hrb : storeRead ((s ++ [storeRead s ha]) ++ [storeRead s hb]) hb
        = storeRead s hb := by
      rw [storeRead_append (by simpa using Nat.lt_succ_of_lt hhb),
        storeRead_append hhb]
    have hraA : storeRead ((s ++ [storeRead s ha]) ++ [storeRead s hb])
        s.length = storeRead s ha := by
      rw [storeRead_append (by simp), storeRead_alloc_new]
    have hrbB : storeRead ((s ++ [storeRead s ha]) ++ [storeRead s hb])
        (s.length + 1) = storeRead s hb := by
      rw [← h2]
      exact storeRead_alloc_new
    unfold prefixesEqualStore
    rw [if_neg (by simpa using hlen)]
    simp only [storeAlloc, storeSortAt, h2]
    rw [hraA]
    have hinner : storeRead
        ((s ++ [storeRead s ha] ++ [storeRead s hb]).set (List.length s)
          (goSortByAddr (storeRead s ha))) (List.length s + 1)
        = storeRead s hb := by
      rw [storeRead_set_ne
        (show List.length s ≠ List.length s + 1 from by omega), hrbB]
    rw [hinner]
    refine ⟨?_, ?_, ?_⟩
    · rw [storeRead_set_ne (show List.length s + 1 ≠ ha from by omega),
        storeRead_set_ne (show List.length s ≠ ha from by omega), hra]
    · rw [storeRead_set_ne (show List.length s + 1 ≠ hb from by omega),
        storeRead_set_ne (show List.length s ≠ hb from by omega), hrb]
    · have e1 : storeRead (((s ++ [storeRead s ha] ++ [storeRead s hb]).set
          (List.length s) (goSortByAddr (storeRead s ha))).set
          (List.length s + 1) (goSortByAddr (storeRead s hb)))
          (List.length s) = goSortByAddr (storeRead s ha) := by
        rw [storeRead_set_ne
          (show List.length s + 1 ≠ List.length s from by omega)]
        exact storeRead_set_eq (by simp)
      have e2 : storeRead (((s ++ [storeRead s ha] ++ [storeRead s hb]).set
          (List.length s) (goSortByAddr (storeRead s ha))).set
          (List.length s + 1) (goSortByAddr (storeRead s hb)))
          (List.length s + 1) = goSortByAddr (storeRead s hb) := by
        refine storeRead_set_eq (by simp)
      rw [e1, e2]
      unfold prefixesEqual
      rw [if_neg (by simpa using hlen)]
  · unfold prefixesEqualStore prefixesEqual
    rw [if_pos (by simpa using hlen), if_pos (by simpa using hlen)]
    exact ⟨rfl, rfl, rfl⟩

/-- C10 witness: a concrete two-slice store. -/
theorem C10_prefixesEqual_no_mutation_witness :
    storeRead (prefixesEqualStore
      [[IPPrefix.mk (ipv4 10 0 0 1) 24], [IPPrefix.mk (ipv4 10 0 0 2) 24]]
      0 1).2 0 =
      storeRead
      [[IPPrefix.mk (ipv4 10 0 0 1) 24], [IPPrefix.mk (ipv4 10 0 0 2) 24]]
      0 ∧
    storeRead (prefixesEqualStore
      [[IPPrefix.mk (ipv4 10 0 0 1) 24], [IPPrefix.mk (ipv4 10 0 0 2) 24]]
      0 1).2 1 =
      storeRead
      [[IPPrefix.mk (ipv4 10 0 0 1) 24], [IPPrefix.mk (ipv4 10 0 0 2) 24]]
      1 ∧
    (prefixesEqualStore
      [[IPPrefix.mk (ipv4 10 0 0 1) 24], [IPPrefix.mk (ipv4 10 0 0 2) 24]]
      0 1).1 =
      prefixesEqual
        (storeRead
          [[IPPrefix.mk (ipv4 10 0 0 1) 24],
           [IPPrefix.mk (ipv4 10 0 0 2) 24]] 0)
        (storeRead
          [[IPPrefix.mk (ipv4 10 0 0 1) 24],
           [IPPrefix.mk (ipv4 10 0 0 2) 24]] 1) :=
  C10_prefixesEqual_no_mutation
    [[IPPrefix.mk (ipv4 10 0 0 1) 24], [IPPrefix.mk (ipv4 10 0 0 2) 24]]
    0 1 (by decide) (by decide)



/-- Concrete old state for the C5 witness: carries the mesh interface ts0
plus eth0, whose address list includes the link-local multicast
224.0.0.251. -/
def c5old : State :=
  { interface := [("ts0",
      { name := "ts0", index := 7, mtu := 1280, up := true, running := true,
        loopback := false }),
      ("eth0",
      { name := "eth0", index := 2, mtu := 1500, up := true, running := true,
        loopback := false })],
    interfaceIPs := [("ts0", [IPPrefix.mk (ipv4 100 64 0 1) 32]),
      ("eth0", [IPPrefix.mk (ipv4 10 0 0 1) 24,
                IPPrefix.mk (ipv4 224 0 0 251) 32])],
    defaultRouteInterface := "eth0", haveV4 := true, haveV6 := false,
    isExpensive := false, pac := "", httpProxy := "" }

/-- Concrete new state for the C5 witness: only the mesh interface address
and the link-local multicast entry differ from c5old. -/
def c5new : State :=
  { interface := c5old.interface,
    interfaceIPs := [("ts0", [IPPrefix.mk (ipv4 100 64 0 2) 32]),
      ("eth0", [IPPrefix.mk (ipv4 10 0 0 1) 24])],
    defaultRouteInterface := "eth0", haveV4 := true, haveV6 := false,
    isExpensive := false, pac := "", httpProxy := "" }

/-- C5 witness: a delta where only the mesh interface's address and a
link-local multicast address changed reports no interesting interface
change. -/
theorem C5_interfaceIPs_frame_witness :
    (NewChangeDelta none (fun _ => true) (some c5old) (some c5new) false
      "ts0").InterfaceIPsChanged = false :=
  C5_interfaceIPs_frame none (fun _ => true) false "ts0" c5old c5new
    (by decide) (by decide)
    (fun _ _ => rfl)
    (by
      intro name h
      by_cases he : name = "eth0"
      · subst he
        decide
      · simp only [c5old, c5new, lookupStr]
        rw [if_neg h, if_neg h, if_neg he, if_neg he]
        exact prefixesEqual_self _)

/-- Old state for the C5 counterexample: a single non-mesh interface whose
address list repeats the address 10.1.2.3 with two prefix lengths. -/
def c5dupOld : State :=
  { interface := [("eth0",
      { name := "eth0", index := 2, mtu := 1500, up := true, running := true,
        loopback := false })],
    interfaceIPs := [("eth0", [IPPrefix.mk (ipv4 10 1 2 3) 24,
                               IPPrefix.mk (ipv4 10 1 2 3) 32])],
    defaultRouteInterface := "eth0", haveV4 := true, haveV6 := false,
    isExpensive := false, pac := "", httpProxy := "" }

/-- New state for the C5 counterexample: identical to c5dupOld except that
the two prefixes on eth0 are listed in the opposite order — the same SET of
routable addresses. -/
def c5dupNew : State :=
  { interface := c5dupOld.interface,
    interfaceIPs := [("eth0", [IPPrefix.mk (ipv4 10 1 2 3) 32,
                               IPPrefix.mk (ipv4 10 1 2 3) 24])],
    defaultRouteInterface := "eth0", haveV4 := true, haveV6 := false,
    isExpensive := false, pac := "", httpProxy := "" }

/-- C5 counterexample: the two states agree on every non-mesh interface
descriptor and on the SET of routable addresses of every non-mesh
interface (the filtered lists are permutations of each other, and nothing
is link-local multicast or unusable), yet the code reports
InterfaceIPsChanged true: prefixesEqual sorts by address only and compares
element-wise, so the repeated address keeps its input order and the
comparison fails. -/
theorem C5_set_equal_counterexample :
    c5dupOld.interface = c5dupNew.interface ∧
    List.Perm
      (filterRoutableIPs (fun _ => true)
        ((lookupStr "eth0" c5dupOld.interfaceIPs).getD []))
      (filterRoutableIPs (fun _ => true)
        ((lookupStr "eth0" c5dupNew.interfaceIPs).getD [])) ∧
    (NewChangeDelta none (fun _ => true) (some c5dupOld) (some c5dupNew)
      false "tailscale0").InterfaceIPsChanged = true := by
  refine ⟨rfl, by decide, by decide⟩


end Netmon
